import Mathlib

/-!
# Verification of the checkpointed agent-flow core of tutor-app-api

Shallow embedding of `src/services/langchain/sqlite-memory.service.js`
(class `SQLiteAgentMemory`) and `src/services/langchain/agent-flow.service.js`
(class `AgentFlowService`).

Modelling conventions:

* The SQLite tables are lists of rows; `INSERT OR REPLACE` under a UNIQUE
  constraint deletes every conflicting row and appends a fresh row with a new
  AUTOINCREMENT rowid, exactly as SQLite does.
* `state_data` holds `JSON.stringify(state)` in the source.  For
  JSON-serializable values `JSON.parse (JSON.stringify x)` is deep-equal to
  `x`, so rows are modelled as holding the state value itself; the store is
  polymorphic in the state type `σ`.
* `Date.now()`, `CURRENT_TIMESTAMP` and `Math.random()` are ambient inputs of
  the JavaScript code; they are passed as explicit parameters (`now : Nat`,
  random suffixes as strings or a numerator of a dyadic rational).
* SQLite leaves the order of rows with equal `created_at` values unspecified
  in `ORDER BY created_at DESC LIMIT 1`; the model keeps the first-scanned
  row on ties, and theorems that depend on "latest" assume a strict maximum.
* JavaScript exceptions are modelled with `Except` / explicit fault flags; a
  store call that throws is modelled as leaving the database unchanged.
-/

/-- JavaScript `x || d` for an optional string `x` (both `undefined` and the
empty string are falsy). -/
def jsOrStr : Option String → String → String
  | none, d => d
  | some s, d => if s = "" then d else s

/-- JavaScript truthiness of an optional string (`undefined` and `""` are
falsy). -/
def jsTruthyStr : Option String → Bool
  | none => false
  | some s => s != ""

/-- Cache key `` `${sessionId}:${x}` `` used by `SQLiteAgentMemory`. -/
def cacheKey (sessionId x : String) : String :=
  sessionId ++ ":" ++ x

/-- `Map.get` on the in-process state cache (association list model). -/
def cacheGet {σ : Type} (c : List (String × σ)) (k : String) : Option σ :=
  (c.find? (fun e => e.1 == k)).map (·.2)

/-- `Map.set` on the in-process state cache: replaces any entry under the same
key. -/
def cacheSet {σ : Type} (c : List (String × σ)) (k : String) (v : σ) :
    List (String × σ) :=
  (k, v) :: c.filter (fun e => !(e.1 == k))

/-- One row of the `agent_memories` table
(`session_id, checkpoint_id, state_data, created_at`, UNIQUE on
`(session_id, checkpoint_id)`). -/
structure MemRow (σ : Type) where
  rowid : Nat
  sessionId : String
  checkpointId : String
  stateData : σ
  createdAt : Nat
  deriving Repr, DecidableEq

/-- One row of the `agent_messages` table
(`session_id, message_id, role, content, timestamp`, UNIQUE on
`(session_id, message_id)`). -/
structure MsgRow where
  rowid : Nat
  sessionId : String
  messageId : String
  role : String
  content : String
  timestamp : Nat
  deriving Repr, DecidableEq

/-- The in-memory model of a `SQLiteAgentMemory` instance: the two tables and
the in-process `stateCache` map, plus the AUTOINCREMENT counters. -/
structure AgentMemory (σ : Type) where
  memories : List (MemRow σ)
  messages : List MsgRow
  stateCache : List (String × σ)
  nextMemRowId : Nat
  nextMsgRowId : Nat

/-- A freshly initialized store (empty tables, empty cache). -/
def AgentMemory.empty {σ : Type} : AgentMemory σ :=
  { memories := [], messages := [], stateCache := [],
    nextMemRowId := 1, nextMsgRowId := 1 }

/-- The checkpoint id generated by `saveCheckpoint` when none is supplied:
`` `ckpt_${Date.now()}_${<random suffix>}` ``. -/
def genCheckpointId (now : Nat) (randSuffix : String) : String :=
  "ckpt_" ++ toString now ++ "_" ++ randSuffix

/-- `saveCheckpoint(sessionId, state, checkpointId = null)`: generates an id
when the given one is falsy, `INSERT OR REPLACE`s the row keyed by
`(session_id, checkpoint_id)` and writes the cache entry
`` `${sessionId}:${checkpointId}` `` ↦ state.  Returns the checkpoint id.
`now` is the clock reading (`Date.now()` / `CURRENT_TIMESTAMP`), `randSuffix`
the random component of a generated id. -/
def AgentMemory.saveCheckpoint {σ : Type} (m : AgentMemory σ) (sessionId : String)
    (state : σ) (checkpointId : Option String) (now : Nat) (randSuffix : String) :
    AgentMemory σ × String :=
  let cid := if jsTruthyStr checkpointId then checkpointId.getD ""
             else genCheckpointId now randSuffix
  let kept := m.memories.filter
    (fun r => !(r.sessionId == sessionId && r.checkpointId == cid))
  let row : MemRow σ :=
    { rowid := m.nextMemRowId, sessionId := sessionId, checkpointId := cid,
      stateData := state, createdAt := now }
  ({ m with
      memories := kept ++ [row],
      stateCache := cacheSet m.stateCache (cacheKey sessionId cid) state,
      nextMemRowId := m.nextMemRowId + 1 }, cid)

/-- `ORDER BY created_at DESC LIMIT 1` over a list of rows: the row with the
greatest `created_at` (ties keep the first-scanned row; SQLite leaves tie
order unspecified). -/
def latestRow {σ : Type} : List (MemRow σ) → Option (MemRow σ)
  | [] => none
  | r :: rs =>
    match latestRow rs with
    | none => some r
    | some b => if b.createdAt > r.createdAt then some b else some r

/-- `loadCheckpoint(sessionId, checkpointId = null)`: checks the cache under
`` `${sessionId}:${checkpointId || 'latest'}` ``; on miss queries the table —
exact id match when a (truthy) id is given, else the most recent row for the
session — populates the cache and returns the state, or `null` when no row
exists.  Returns the (possibly cache-updated) store and the result. -/
def AgentMemory.loadCheckpoint {σ : Type} (m : AgentMemory σ) (sessionId : String)
    (checkpointId : Option String) : AgentMemory σ × Option σ :=
  let key := cacheKey sessionId
    (if jsTruthyStr checkpointId then checkpointId.getD "" else "latest")
  match cacheGet m.stateCache key with
  | some st => (m, some st)
  | none =>
    let result :=
      if jsTruthyStr checkpointId then
        (m.memories.filter (fun r =>
          r.sessionId == sessionId && r.checkpointId == checkpointId.getD "")).head?
      else
        latestRow (m.memories.filter (fun r => r.sessionId == sessionId))
    match result with
    | none => (m, none)
    | some row =>
      ({ m with stateCache := cacheSet m.stateCache key row.stateData },
       some row.stateData)

/-- `saveMessage(sessionId, messageId, role, content)`: `INSERT OR REPLACE`
keyed by `(session_id, message_id)`; the row timestamp defaults to the current
time. -/
def AgentMemory.saveMessage {σ : Type} (m : AgentMemory σ)
    (sessionId messageId role content : String) (now : Nat) : AgentMemory σ :=
  let kept := m.messages.filter
    (fun r => !(r.sessionId == sessionId && r.messageId == messageId))
  let row : MsgRow :=
    { rowid := m.nextMsgRowId, sessionId := sessionId, messageId := messageId,
      role := role, content := content, timestamp := now }
  { m with messages := kept ++ [row], nextMsgRowId := m.nextMsgRowId + 1 }

/-- The shape `getMessages` maps each row to:
`{ id, role, content, timestamp }`. -/
structure MessageOut where
  id : String
  role : String
  content : String
  timestamp : Nat
  deriving Repr, DecidableEq

/-- Projection of a message row to the `getMessages` output shape. -/
def msgRowToOut (r : MsgRow) : MessageOut :=
  { id := r.messageId, role := r.role, content := r.content,
    timestamp := r.timestamp }

/-- Insert a row into a list sorted by ascending timestamp (stable: equal
timestamps keep earlier rows first). -/
def insertByTimestamp (r : MsgRow) : List MsgRow → List MsgRow
  | [] => [r]
  | x :: xs =>
    if r.timestamp < x.timestamp then r :: x :: xs
    else x :: insertByTimestamp r xs

/-- `ORDER BY timestamp ASC` over a list of message rows (insertion sort). -/
def sortByTimestamp : List MsgRow → List MsgRow
  | [] => []
  | r :: rs => insertByTimestamp r (sortByTimestamp rs)

/-- `getMessages(sessionId, limit = 100)`: rows of the session in ascending
timestamp order, at most `limit` of them, projected to the output shape. -/
def AgentMemory.getMessages {σ : Type} (m : AgentMemory σ) (sessionId : String)
    (limit : Nat) : List MessageOut :=
  ((sortByTimestamp (m.messages.filter (fun r => r.sessionId == sessionId))).take
      limit).map msgRowToOut

/-! ## The agent-flow workflow (`agent-flow.service.js`) -/

/-- A chat message object `{ role, content, id? }` as passed through the
workflow state (the system message built in the agent node carries no id). -/
structure ChatMsg where
  role : String
  content : String
  id : Option String
  deriving Repr, DecidableEq

/-- The workflow state threaded through the four pipeline nodes.  `subject`,
`name`, `messages`, `sessionId` are the fields `executeAgentFlow` initializes;
`systemPrompt`, `response`, `checkpointId` are added by the stages (absent =
`none`). -/
structure FlowState where
  subject : String
  name : String
  messages : List ChatMsg
  sessionId : String
  systemPrompt : Option String := none
  response : Option String := none
  checkpointId : Option String := none
  deriving Repr, DecidableEq

/-- The session descriptor (`tutorSession`): `id` plus possibly-absent
`subject` and `name`. -/
structure TutorSession where
  id : String
  subject : Option String
  name : Option String
  deriving Repr, DecidableEq

/-- The agentState projection of the caller-facing result. -/
structure AgentStateOut where
  subject : String
  name : String
  checkpointId : Option String := none
  deriving Repr, DecidableEq

/-- The caller-facing result `{ content, agentState, timestamp, error? }`. -/
structure FlowResult where
  content : String
  agentState : AgentStateOut
  timestamp : String
  error : Option String := none
  deriving Repr, DecidableEq

/-- Fault flags for the four persistence calls a turn makes; a `true` flag
makes the corresponding store call throw (leaving the database unchanged). -/
structure Faults where
  loadCheckpoint : Bool := false
  saveUserMsg : Bool := false
  saveAsstMsg : Bool := false
  saveCheckpoint : Bool := false
  deriving Repr, DecidableEq

/-- Ambient inputs of one turn: the text generator
(`openAIService.generateTutorResponse`, which receives the user input, the
minimal session `{id, subject}` and the formatted history, and either returns
text or throws), the store fault flags, the `Date.now()` readings at the three
id-generation points, the random suffix drawn inside `saveCheckpoint`, the
per-index random legacy ids of `_formatMessageHistory`, and the
`new Date().toISOString()` reading. -/
structure FlowEnv where
  gen : String → String → String → List ChatMsg → Except String String
  faults : Faults := {}
  tUserMsg : Nat := 0
  tAsstMsg : Nat := 0
  tCkpt : Nat := 0
  ckptRand : String := ""
  legacyIds : Nat → String := fun _ => ""
  isoNow : String := ""

/-- The fixed fallback substituted in the agent node when the text generator
throws. -/
def fallbackResponse : String :=
  "I'm having trouble processing your request. Please try again."

/-- The fixed apology produced by `workflow.execute`'s catch block. -/
def pipelineApology : String :=
  "I apologize, but there was an error processing your request."

/-- The degraded result built by `workflow.execute`'s catch block from the
input state's `subject` and `name`. -/
def mkPipelineErrorResult (state : FlowState) (isoNow errMsg : String) :
    FlowResult :=
  { content := pipelineApology,
    agentState := { subject := state.subject, name := state.name },
    timestamp := isoNow,
    error := some errMsg }

/-- The `start` node: derives the system prompt from `name` and `subject`.
(The `createSubjectPromptTemplate` call's result is discarded by the source.) -/
def nodeStart (state : FlowState) : FlowState :=
  { state with
    systemPrompt := some ("You are a friendly assistant called " ++
      state.name ++ " who can answer basic questions on " ++ state.subject) }

/-- The `agent` node: prepends the system message to the history, invokes the
text generator, and on a thrown generator error substitutes
`fallbackResponse`. -/
def nodeAgent (env : FlowEnv) (state : FlowState) (input : String) : FlowState :=
  let formattedHistory : List ChatMsg :=
    { role := "system", content := state.systemPrompt.getD "", id := none }
      :: state.messages
  match env.gen input state.sessionId state.subject formattedHistory with
  | Except.ok r => { state with response := some r }
  | Except.error _ => { state with response := some fallbackResponse }

/-- The `memory` node: saves the assistant message under id
`` `msg_${Date.now()}` ``, appends it to the state's messages, saves a
checkpoint of `{...state, messages}`, and returns the state extended with the
new messages and checkpoint id.  If either store call throws, the catch block
returns the input state unchanged (the store keeps whatever was already
written). -/
def nodeMemory (env : FlowEnv) (mem : AgentMemory FlowState)
    (state : FlowState) : AgentMemory FlowState × FlowState :=
  let messageId := "msg_" ++ toString env.tAsstMsg
  if env.faults.saveAsstMsg then (mem, state)
  else
    let mem1 := mem.saveMessage state.sessionId messageId "assistant"
      (state.response.getD "") env.tAsstMsg
    let messages := state.messages ++
      [{ role := "assistant", content := state.response.getD "",
         id := some messageId }]
    if env.faults.saveCheckpoint then (mem1, state)
    else
      let save := mem1.saveCheckpoint state.sessionId
        { state with messages := messages } none env.tCkpt env.ckptRand
      (save.1, { state with messages := messages, checkpointId := some save.2 })

/-- The `end` node: projects the state to the public result shape. -/
def nodeEnd (env : FlowEnv) (state : FlowState) : FlowResult :=
  { content := state.response.getD "",
    agentState := { subject := state.subject, name := state.name,
                    checkpointId := state.checkpointId },
    timestamp := env.isoNow,
    error := none }

/-- `workflow.execute(state, input)` with the stage functions abstracted: runs
start, agent, memory, end strictly in order inside one try block; the first
exception thrown by a stage is caught at the top and converted into
`mkPipelineErrorResult state isoNow e`.  Each stage returns its (possibly
mutated) store together with either its output or a thrown error; `execute`
itself always returns a result — no exception escapes. -/
def workflowExecute {M : Type}
    (startN : M → FlowState → String → M × Except String FlowState)
    (agentN : M → FlowState → String → M × Except String FlowState)
    (memoryN : M → FlowState → M × Except String FlowState)
    (endN : M → FlowState → M × Except String FlowResult)
    (isoNow : String) (mem : M) (state : FlowState) (input : String) :
    M × FlowResult :=
  match startN mem state input with
  | (m1, Except.error e) => (m1, mkPipelineErrorResult state isoNow e)
  | (m1, Except.ok s1) =>
    match agentN m1 s1 input with
    | (m2, Except.error e) => (m2, mkPipelineErrorResult state isoNow e)
    | (m2, Except.ok s2) =>
      match memoryN m2 s2 with
      | (m3, Except.error e) => (m3, mkPipelineErrorResult state isoNow e)
      | (m3, Except.ok s3) =>
        match endN m3 s3 with
        | (m4, Except.error e) => (m4, mkPipelineErrorResult state isoNow e)
        | (m4, Except.ok r) => (m4, r)

/-- The concrete pipeline built by `createAgentFlow`: `workflowExecute`
instantiated with the four real nodes (whose bodies absorb their own failures
and therefore never throw). -/
def pipelineExecute (env : FlowEnv) (mem : AgentMemory FlowState)
    (state : FlowState) (input : String) : AgentMemory FlowState × FlowResult :=
  workflowExecute
    (fun m s _ => (m, Except.ok (nodeStart s)))
    (fun m s i => (m, Except.ok (nodeAgent env s i)))
    (fun m s => let p := nodeMemory env m s; (p.1, Except.ok p.2))
    (fun m s => (m, Except.ok (nodeEnd env s)))
    env.isoNow mem state input

/-- `_formatMessageHistory`: empty input maps to `[]`; otherwise each message
keeps its fields, a falsy id being replaced by the synthesized
`` `legacy_${Date.now()}_${random}` `` id for its position. -/
def formatMessageHistory (env : FlowEnv) (hist : List ChatMsg) : List ChatMsg :=
  if hist.isEmpty then []
  else hist.enum.map (fun p =>
    { role := p.2.role, content := p.2.content,
      id := some (jsOrStr p.2.id (env.legacyIds p.1)) })

/-- `executeAgentFlow(userMessage, tutorSession, messageHistory = [])`: obtains
the session's workflow, formats the history, loads the latest checkpoint
(errors caught, leaving `initialState` null), falls back to a fresh state from
the session descriptor, persists the user message under id
`` `msg_${Date.now()}` `` and appends it to the state (errors caught, leaving
the state unchanged), then runs the pipeline.  Returns the final store and the
result. -/
def executeAgentFlow (env : FlowEnv) (mem : AgentMemory FlowState)
    (userMessage : String) (tutorSession : TutorSession)
    (messageHistory : List ChatMsg) : AgentMemory FlowState × FlowResult :=
  let formattedHistory := formatMessageHistory env messageHistory
  let load :=
    if env.faults.loadCheckpoint then (mem, none)
    else mem.loadCheckpoint tutorSession.id none
  let mem0 := load.1
  let state0 : FlowState := load.2.getD
    { subject := jsOrStr tutorSession.subject "various subjects",
      name := jsOrStr tutorSession.name "AI Tutor",
      messages := formattedHistory,
      sessionId := tutorSession.id }
  let userMsgId := "msg_" ++ toString env.tUserMsg
  let afterUser :=
    if env.faults.saveUserMsg then (mem0, state0)
    else
      (mem0.saveMessage tutorSession.id userMsgId "user" userMessage env.tUserMsg,
       { state0 with messages := state0.messages ++
          [{ role := "user", content := userMessage, id := some userMsgId }] })
  pipelineExecute env afterUser.1 afterUser.2 userMessage

/-! ## The random suffix of generated checkpoint ids

`saveCheckpoint` builds the random component of a generated id as
`Math.random().toString(36).substring(2, 15)`.  `Math.random()` returns a
dyadic rational `num / 2^53` with `num < 2^53`; `Number.prototype.toString(36)`
prints `"0"` for zero and otherwise `"0."` followed by the base-36 digits of
the fraction, stopping when the remainder is exhausted (for non-terminating
expansions the engine stops after roughly the precision of a double — the
model prints up to 30 digits; only terminating prefixes and the length upper
bound are relied on by theorems). -/

/-- Base-36 digits of the fraction `num / den` (most significant first),
stopping at a zero remainder or after `fuel` digits. -/
def frac36 : Nat → Nat → Nat → List Nat
  | 0, _, _ => []
  | _ + 1, 0, _ => []
  | fuel + 1, num, den => num * 36 / den :: frac36 fuel (num * 36 % den) den

/-- The character for a base-36 digit (`0`–`9`, `a`–`z`). -/
def digitChar36 (d : Nat) : Char :=
  if d < 10 then Char.ofNat (48 + d) else Char.ofNat (87 + d)

/-- `(num / 2^53).toString(36)` for `0 ≤ num / 2^53 < 1`. -/
def jsToString36 (num : Nat) : String :=
  if num = 0 then "0"
  else "0." ++ String.mk ((frac36 30 num (2 ^ 53)).map digitChar36)

/-- JavaScript `s.substring(a, b)` for `a ≤ b` (indices beyond the length are
clamped). -/
def jsSubstring (s : String) (a b : Nat) : String :=
  String.mk ((s.data.drop a).take (b - a))

/-- The random suffix drawn by `saveCheckpoint`:
`Math.random().toString(36).substring(2, 15)` where `Math.random()` returned
`num / 2^53`. -/
def ckptRandSuffix (num : Nat) : String :=
  jsSubstring (jsToString36 num) 2 15

/-! ## Helper lemmas about the store model -/

theorem cacheGet_cacheSet_same {σ : Type} (c : List (String × σ)) (k : String)
    (v : σ) : cacheGet (cacheSet c k v) k = some v := by
  simp [cacheGet, cacheSet, List.find?_cons]

theorem find?_key_of_filter_other {σ : Type} (c : List (String × σ))
    (k k' : String) (h : k' ≠ k) :
    List.find? (fun e => e.1 == k') (c.filter (fun e => !(e.1 == k))) =
      List.find? (fun e => e.1 == k') c := by
  have hkk : (k == k') = false := by
    simp
    exact fun hcontra => h hcontra.symm
  induction c with
  | nil => rfl
  | cons a c ih =>
    by_cases hak : a.1 = k
    · simp [List.filter_cons, List.find?_cons, hak, hkk, ih]
    · by_cases hak' : a.1 = k'
      · simp [List.filter_cons, List.find?_cons, hak, hak', h]
      · simp [List.filter_cons, List.find?_cons, hak, hak', ih]

theorem cacheGet_cacheSet_ne {σ : Type} (c : List (String × σ)) (k k' : String)
    (v : σ) (h : k' ≠ k) : cacheGet (cacheSet c k v) k' = cacheGet c k' := by
  have hk : (k == k') = false := by
    simp
    exact fun hcontra => h hcontra.symm
  simp [cacheGet, cacheSet, List.find?_cons, hk,
    find?_key_of_filter_other c k k' h]

theorem cacheKey_right_inj (s a b : String) (h : cacheKey s a = cacheKey s b) :
    a = b := by
  have h2 := congrArg String.data h
  simp only [cacheKey, String.data_append, List.append_assoc] at h2
  exact String.ext (List.append_cancel_left (List.append_cancel_left h2))

theorem genCheckpointId_ne_empty (now : Nat) (r : String) :
    genCheckpointId now r ≠ "" := by
  intro h
  have h2 := congrArg String.data h
  simp [genCheckpointId, String.data_append] at h2

theorem genCheckpointId_ne_latest (now : Nat) (r : String) :
    genCheckpointId now r ≠ "latest" := by
  intro h
  have h2 := congrArg String.data h
  simp [genCheckpointId, String.data_append] at h2

theorem latestRow_append_last {σ : Type} (l : List (MemRow σ)) (r : MemRow σ)
    (h : ∀ x ∈ l, x.createdAt < r.createdAt) :
    latestRow (l ++ [r]) = some r := by
  induction l with
  | nil => rfl
  | cons x l ih =>
    have hx := h x (List.mem_cons_self _ _)
    have ih2 := ih (fun y hy => h y (List.mem_cons_of_mem _ hy))
    simp [latestRow, ih2, hx]

/-! ## Helper lemmas about the timestamp sort -/

theorem mem_insertByTimestamp (r : MsgRow) (l : List MsgRow) (y : MsgRow)
    (h : y ∈ insertByTimestamp r l) : y = r ∨ y ∈ l := by
  induction l with
  | nil => simpa [insertByTimestamp] using h
  | cons x xs ih =>
    by_cases hc : r.timestamp < x.timestamp
    · simp [insertByTimestamp, hc] at h
      rcases h with h | h | h
      · exact Or.inl h
      · exact Or.inr (by simp [h])
      · exact Or.inr (List.mem_cons_of_mem _ h)
    · simp [insertByTimestamp, hc] at h
      rcases h with h | h
      · exact Or.inr (by simp [h])
      · rcases ih h with h2 | h2
        · exact Or.inl h2
        · exact Or.inr (List.mem_cons_of_mem _ h2)

theorem pairwise_insertByTimestamp (r : MsgRow) (l : List MsgRow)
    (h : l.Pairwise (fun a b => a.timestamp ≤ b.timestamp)) :
    (insertByTimestamp r l).Pairwise (fun a b => a.timestamp ≤ b.timestamp) := by
  induction l with
  | nil => simp [insertByTimestamp]
  | cons x xs ih =>
    rcases List.pairwise_cons.mp h with ⟨hx, hxs⟩
    by_cases hc : r.timestamp < x.timestamp
    · simp only [insertByTimestamp, hc, if_pos]
      refine List.pairwise_cons.mpr ⟨?_, h⟩
      intro y hy
      rcases List.mem_cons.mp hy with rfl | hy'
      · exact Nat.le_of_lt hc
      · exact Nat.le_trans (Nat.le_of_lt hc) (hx y hy')
    · simp only [insertByTimestamp, hc, if_neg, not_false_iff]
      refine List.pairwise_cons.mpr ⟨?_, ih hxs⟩
      intro y hy
      rcases mem_insertByTimestamp r xs y hy with rfl | hy'
      · exact Nat.le_of_not_lt hc
      · exact hx y hy'

theorem pairwise_sortByTimestamp (l : List MsgRow) :
    (sortByTimestamp l).Pairwise (fun a b => a.timestamp ≤ b.timestamp) := by
  induction l with
  | nil => simp [sortByTimestamp]
  | cons r rs ih => exact pairwise_insertByTimestamp r _ ih

theorem mem_sortByTimestamp (l : List MsgRow) (y : MsgRow)
    (h : y ∈ sortByTimestamp l) : y ∈ l := by
  induction l with
  | nil => simp [sortByTimestamp] at h
  | cons r rs ih =>
    rcases mem_insertByTimestamp r _ y (by simpa [sortByTimestamp] using h) with
      rfl | h2
    · exact List.mem_cons_self _ _
    · exact List.mem_cons_of_mem _ (ih h2)

/-! ## Helper lemmas about the base-36 expansion -/

theorem frac36_lt (fuel : Nat) : ∀ num den : Nat, 0 < den → num < den →
    ∀ d ∈ frac36 fuel num den, d < 36 := by
  induction fuel with
  | zero => intro num den _ _ d hd; simp [frac36] at hd
  | succ n ih =>
    intro num den hden hnum d hd
    rcases Nat.eq_zero_or_pos num with rfl | hpos
    · simp [frac36] at hd
    · obtain ⟨k, rfl⟩ := Nat.exists_eq_succ_of_ne_zero (Nat.pos_iff_ne_zero.mp hpos)
      simp only [frac36] at hd
      rcases List.mem_cons.mp hd with rfl | hd2
      · exact Nat.div_lt_of_lt_mul (by omega)
      · exact ih _ den hden (Nat.mod_lt _ hden) d hd2

theorem digitChar36_alnum (d : Nat) (h : d < 36) :
    ('0' ≤ digitChar36 d ∧ digitChar36 d ≤ '9') ∨
      ('a' ≤ digitChar36 d ∧ digitChar36 d ≤ 'z') := by
  interval_cases d <;> decide

/-! ## Helper lemmas about the pipeline nodes -/

theorem pipelineExecute_eq (env : FlowEnv) (mem : AgentMemory FlowState)
    (state : FlowState) (input : String) :
    pipelineExecute env mem state input =
      ((nodeMemory env mem (nodeAgent env (nodeStart state) input)).1,
        nodeEnd env
          (nodeMemory env mem (nodeAgent env (nodeStart state) input)).2) :=
  rfl

theorem nodeStart_subject (state : FlowState) :
    (nodeStart state).subject = state.subject := rfl

theorem nodeAgent_subject (env : FlowEnv) (state : FlowState) (input : String) :
    (nodeAgent env state input).subject = state.subject := by
  unfold nodeAgent
  dsimp only
  split <;> rfl

theorem nodeMemory_snd_subject (env : FlowEnv) (mem : AgentMemory FlowState)
    (state : FlowState) : (nodeMemory env mem state).2.subject = state.subject := by
  unfold nodeMemory
  by_cases h1 : env.faults.saveAsstMsg <;> by_cases h2 : env.faults.saveCheckpoint <;>
    simp [h1, h2]

theorem nodeMemory_snd_response (env : FlowEnv) (mem : AgentMemory FlowState)
    (state : FlowState) :
    (nodeMemory env mem state).2.response = state.response := by
  unfold nodeMemory
  by_cases h1 : env.faults.saveAsstMsg <;> by_cases h2 : env.faults.saveCheckpoint <;>
    simp [h1, h2]

/-! ## Claim theorems -/

/-- C2: checkpoint round-trip.  For every store, session id and
(JSON-serializable) state `s`, `saveCheckpoint(sessionId, s)` returning
`checkpointId` followed by `loadCheckpoint(sessionId, checkpointId)` returns a
state deep-equal to `s` (the save writes the cache entry the load reads
first). -/
theorem c2_checkpoint_roundtrip {σ : Type} (mem : AgentMemory σ) (sess : String)
    (s : σ) (cidIn : Option String) (now : Nat) (rand : String) :
    ((mem.saveCheckpoint sess s cidIn now rand).1.loadCheckpoint sess
        (some (mem.saveCheckpoint sess s cidIn now rand).2)).2 = some s := by
  rcases cidIn with _ | t
  · have hne : genCheckpointId now rand ≠ "" := genCheckpointId_ne_empty now rand
    have hb : (genCheckpointId now rand != "") = true := by simp [hne]
    simp [AgentMemory.saveCheckpoint, AgentMemory.loadCheckpoint, jsTruthyStr,
      hb, cacheGet_cacheSet_same]
  · by_cases hte : t = ""
    · subst hte
      have hne : genCheckpointId now rand ≠ "" := genCheckpointId_ne_empty now rand
      have hb : (genCheckpointId now rand != "") = true := by simp [hne]
      simp [AgentMemory.saveCheckpoint, AgentMemory.loadCheckpoint, jsTruthyStr,
        hb, cacheGet_cacheSet_same]
    · have hb : (t != "") = true := by simp [hte]
      simp [AgentMemory.saveCheckpoint, AgentMemory.loadCheckpoint, jsTruthyStr,
        hb, cacheGet_cacheSet_same]

/-- C7: `saveMessage` idempotent overwrite.  Saving twice under the same
`(sessionId, messageId)` key (with any contents) leaves exactly one row for
that key, holding the role, content and timestamp of the second call. -/
theorem c7_saveMessage_overwrite {σ : Type} (mem : AgentMemory σ)
    (sess mid role1 c1 role2 c2 : String) (t1 t2 : Nat) :
    (((mem.saveMessage sess mid role1 c1 t1).saveMessage sess mid role2 c2
          t2).messages.filter
        (fun r => r.sessionId == sess && r.messageId == mid)) =
      [{ rowid := mem.nextMsgRowId + 1, sessionId := sess, messageId := mid,
         role := role2, content := c2, timestamp := t2 }] := by
  simp [AgentMemory.saveMessage, List.filter_append, List.filter_filter]

/-- C8: `getMessages(sessionId, limit)` returns only rows of that session, in
non-decreasing timestamp order regardless of the insertion order of the saves,
and at most `limit` of them. -/
theorem c8_getMessages_ordered_bounded {σ : Type} (mem : AgentMemory σ)
    (sess : String) (limit : Nat) :
    (mem.getMessages sess limit).length ≤ limit ∧
    (mem.getMessages sess limit).Pairwise
      (fun a b => a.timestamp ≤ b.timestamp) ∧
    ∀ x ∈ mem.getMessages sess limit,
      ∃ r ∈ mem.messages, r.sessionId = sess ∧ x = msgRowToOut r := by
  refine ⟨?_, ?_, ?_⟩
  · simp only [AgentMemory.getMessages, List.length_map, List.length_take]
    exact Nat.min_le_left _ _
  · refine List.Pairwise.map msgRowToOut (fun a b h => h) ?_
    exact List.Pairwise.sublist (List.take_sublist _ _)
      (pairwise_sortByTimestamp
        (mem.messages.filter (fun r => r.sessionId == sess)))
  · intro x hx
    simp only [AgentMemory.getMessages, List.mem_map] at hx
    obtain ⟨r, hr, rfl⟩ := hx
    have hr2 : r ∈ sortByTimestamp
        (mem.messages.filter (fun r => r.sessionId == sess)) :=
      (List.take_sublist _ _).subset hr
    have hr3 := mem_sortByTimestamp _ _ hr2
    rcases List.mem_filter.mp hr3 with ⟨hmem, hsess⟩
    exact ⟨r, hmem, by simpa using hsess, rfl⟩

/-- C1 counterexample: `saveCheckpoint` updates only the
`sessionId:checkpointId` cache entry, never `sessionId:latest`, so once a
no-id `loadCheckpoint` has populated `sessionId:latest`, a later save leaves
that entry stale.  Concretely: save state `"a"` at time 1, load with no id
(caches `s:latest ↦ "a"`), save state `"b"` at time 2, load with no id — the
code returns the stale `"a"` although the most-recent-by-creation-time
checkpoint of the session holds `"b"`. -/
theorem c1_counterexample :
    (((((AgentMemory.empty (σ := String)).saveCheckpoint "s" "a" none 1
            "r1").1.loadCheckpoint "s" none).1.saveCheckpoint "s" "b" none 2
          "r2").1.loadCheckpoint "s" none).2 = some "a" ∧
    (latestRow
        (((((AgentMemory.empty (σ := String)).saveCheckpoint "s" "a" none 1
              "r1").1.loadCheckpoint "s" none).1.saveCheckpoint "s" "b" none 2
            "r2").1.memories.filter (fun r => r.sessionId == "s"))).map
        (fun r => r.stateData) = some "b" ∧
    ("a" : String) ≠ "b" := by
  refine ⟨by decide, by decide, by decide⟩

/-- On a `latest`-cache miss, a no-id `loadCheckpoint` returns the state of
the row `ORDER BY created_at DESC LIMIT 1` selects for the session (or `null`
when there is none). -/
theorem loadCheckpoint_none_db {σ : Type} (m : AgentMemory σ) (sess : String)
    (hcache : cacheGet m.stateCache (cacheKey sess "latest") = none) :
    (m.loadCheckpoint sess none).2 =
      (latestRow (m.memories.filter (fun r => r.sessionId == sess))).map
        (fun r => r.stateData) := by
  simp only [AgentMemory.loadCheckpoint, jsTruthyStr, Bool.false_eq_true,
    if_false]
  rw [hcache]
  cases h : latestRow (m.memories.filter (fun r => r.sessionId == sess)) <;>
    simp [h]

/-- C1 amended: the claim holds provided the in-process cache has no (stale)
entry under the session's `latest` key: a no-id `loadCheckpoint` then returns
`null` when the session has no checkpoint row, and after a
`saveCheckpoint(sessionId, s)` whose creation time is later than every
existing checkpoint of the session, a no-id `loadCheckpoint` returns a state
deep-equal to `s` (the save's own cache write is under a `ckpt_`-prefixed key
and cannot mask the `latest` lookup). -/
theorem c1_amended_load_latest {σ : Type} (mem : AgentMemory σ) (sess : String)
    (s : σ) (now : Nat) (rand : String)
    (hcache : cacheGet mem.stateCache (cacheKey sess "latest") = none) :
    ((∀ r ∈ mem.memories, r.sessionId ≠ sess) →
        (mem.loadCheckpoint sess none).2 = none) ∧
    ((∀ r ∈ mem.memories, r.sessionId = sess → r.createdAt < now) →
        (((mem.saveCheckpoint sess s none now rand).1.loadCheckpoint sess
            none)).2 = some s) := by
  constructor
  · intro hnone
    have hfilter : mem.memories.filter (fun r => r.sessionId == sess) = [] := by
      rw [List.filter_eq_nil_iff]
      intro r hr
      simpa using hnone r hr
    rw [loadCheckpoint_none_db mem sess hcache, hfilter]
    rfl
  · intro hlt
    have hkey : cacheKey sess "latest" ≠
        cacheKey sess (genCheckpointId now rand) := by
      intro h
      exact genCheckpointId_ne_latest now rand (cacheKey_right_inj _ _ _ h).symm
    have hcachemem : (mem.saveCheckpoint sess s none now rand).1.stateCache =
        cacheSet mem.stateCache (cacheKey sess (genCheckpointId now rand)) s :=
      rfl
    have hcache2 : cacheGet
        (mem.saveCheckpoint sess s none now rand).1.stateCache
        (cacheKey sess "latest") = none := by
      rw [hcachemem, cacheGet_cacheSet_ne _ _ _ _ hkey]
      exact hcache
    rw [loadCheckpoint_none_db _ _ hcache2]
    have hmems : (mem.saveCheckpoint sess s none now rand).1.memories =
        mem.memories.filter (fun r =>
          !(r.sessionId == sess &&
            r.checkpointId == genCheckpointId now rand)) ++
          [({ rowid := mem.nextMemRowId, sessionId := sess,
              checkpointId := genCheckpointId now rand, stateData := s,
              createdAt := now } : MemRow σ)] := rfl
    rw [hmems, List.filter_append]
    have hone : List.filter (fun r => r.sessionId == sess)
        [({ rowid := mem.nextMemRowId, sessionId := sess,
            checkpointId := genCheckpointId now rand, stateData := s,
            createdAt := now } : MemRow σ)] =
        [({ rowid := mem.nextMemRowId, sessionId := sess,
            checkpointId := genCheckpointId now rand, stateData := s,
            createdAt := now } : MemRow σ)] := by simp
    rw [hone]
    have hsub : ∀ x ∈ (mem.memories.filter (fun r =>
        !(r.sessionId == sess &&
          r.checkpointId == genCheckpointId now rand))).filter
          (fun r => r.sessionId == sess),
        x.createdAt < now := by
      intro x hx
      rcases List.mem_filter.mp hx with ⟨hx1, hx2⟩
      rcases List.mem_filter.mp hx1 with ⟨hx3, _⟩
      exact hlt x hx3 (by simpa using hx2)
    rw [latestRow_append_last _ _ hsub]
    rfl

/-- Witness for the C1 amended theorem at a concrete (fresh) store. -/
theorem c1_amended_load_latest_witness :
    ((AgentMemory.empty (σ := String)).loadCheckpoint "s" none).2 = none ∧
    (((AgentMemory.empty (σ := String)).saveCheckpoint "s" "v" none 5
        "r").1.loadCheckpoint "s" none).2 = some "v" :=
  ⟨(c1_amended_load_latest AgentMemory.empty "s" "v" 5 "r" rfl).1
      (by simp [AgentMemory.empty]),
   (c1_amended_load_latest AgentMemory.empty "s" "v" 5 "r" rfl).2
      (by simp [AgentMemory.empty])⟩

/-- C6 counterexample: the random suffix is
`Math.random().toString(36).substring(2, 15)`, and nothing guarantees 8
characters.  `Math.random()` can return `0.5` (= `2^52 / 2^53`), whose base-36
representation is `"0.i"`: the generated id is then `ckpt_<t>_i`, with a
1-character random suffix. -/
theorem c6_counterexample :
    ckptRandSuffix (2 ^ 52) = "i" ∧
    ¬ 8 ≤ (ckptRandSuffix (2 ^ 52)).length ∧
    genCheckpointId 7 (ckptRandSuffix (2 ^ 52)) = "ckpt_7_i" := by
  refine ⟨by decide, by decide, by decide⟩

/-- C6 amended: a generated checkpoint id is the time-based prefix
`` `ckpt_${Date.now()}_` `` followed by the random suffix
`Math.random().toString(36).substring(2, 15)` — a base-36 alphanumeric string
of at most 13 characters; a minimum length (in particular ≥ 8) is not
guaranteed. -/
theorem c6_amended_id_format (now num : Nat) (h : num < 2 ^ 53) :
    genCheckpointId now (ckptRandSuffix num) =
      "ckpt_" ++ toString now ++ "_" ++ ckptRandSuffix num ∧
    (ckptRandSuffix num).length ≤ 13 ∧
    ∀ c ∈ (ckptRandSuffix num).data,
      ('0' ≤ c ∧ c ≤ '9') ∨ ('a' ≤ c ∧ c ≤ 'z') := by
  refine ⟨rfl, ?_, ?_⟩
  · show (ckptRandSuffix num).data.length ≤ 13
    simp only [ckptRandSuffix, jsSubstring]
    exact le_trans (List.length_take_le _ _) (by norm_num)
  · intro c hc
    rcases Nat.eq_zero_or_pos num with rfl | hpos
    · simp [ckptRandSuffix, jsToString36, jsSubstring] at hc
    · have hnum : num ≠ 0 := Nat.pos_iff_ne_zero.mp hpos
      have hdata : (ckptRandSuffix num).data =
          (((frac36 30 num (2 ^ 53)).map digitChar36).take 13) := by
        simp [ckptRandSuffix, jsToString36, jsSubstring, hnum,
          String.data_append]
      rw [hdata] at hc
      have hc2 := (List.take_sublist _ _).subset hc
      rcases List.mem_map.mp hc2 with ⟨d, hd, rfl⟩
      exact digitChar36_alnum d
        (frac36_lt 30 num (2 ^ 53) (by norm_num) h d hd)

/-- Witness for the C6 amended theorem at `Math.random() = 0.5`. -/
theorem c6_amended_id_format_witness :
    (2 ^ 52 : Nat) < 2 ^ 53 ∧
    genCheckpointId 7 (ckptRandSuffix (2 ^ 52)) =
      "ckpt_" ++ toString 7 ++ "_" ++ ckptRandSuffix (2 ^ 52) ∧
    (ckptRandSuffix (2 ^ 52)).length ≤ 13 :=
  ⟨by norm_num, (c6_amended_id_format 7 (2 ^ 52) (by norm_num)).1,
   (c6_amended_id_format 7 (2 ^ 52) (by norm_num)).2.1⟩

/-- Under an always-throwing generator, the pipeline's result text is the
agent-node fallback, whatever the store contents, fault flags and input
state are. -/
theorem pipelineExecute_content_fallback (env : FlowEnv)
    (mem : AgentMemory FlowState) (state : FlowState) (input : String)
    (hgen : ∀ i sid subj h, ∃ e, env.gen i sid subj h = Except.error e) :
    (pipelineExecute env mem state input).2.content = fallbackResponse := by
  rw [pipelineExecute_eq]
  have hresp :
      (nodeMemory env mem (nodeAgent env (nodeStart state) input)).2.response =
        some fallbackResponse := by
    rw [nodeMemory_snd_response]
    obtain ⟨e, he⟩ := hgen input (nodeStart state).sessionId
      (nodeStart state).subject
      ({ role := "system", content := (nodeStart state).systemPrompt.getD "",
         id := none } :: (nodeStart state).messages)
    simp [nodeAgent, he]
  simp [nodeEnd, hresp]

/-- C3: if the text-generation capability always fails, `executeAgentFlow`
still returns a result whose `content` is the fixed fallback string — for
every store, session, history and fault configuration; the model is a total
function, so no exception reaches the caller. -/
theorem c3_generator_failure_fallback (env : FlowEnv)
    (mem : AgentMemory FlowState) (userMessage : String) (sess : TutorSession)
    (hist : List ChatMsg)
    (hgen : ∀ i sid subj h, ∃ e, env.gen i sid subj h = Except.error e) :
    (executeAgentFlow env mem userMessage sess hist).2.content =
      fallbackResponse :=
  pipelineExecute_content_fallback env _ _ userMessage hgen

/-- Witness for C3 at a concrete turn with a generator that always throws. -/
theorem c3_generator_failure_fallback_witness :
    (executeAgentFlow
        { gen := fun _ _ _ _ => Except.error "offline", tUserMsg := 1,
          tAsstMsg := 2, tCkpt := 3, ckptRand := "r", isoNow := "T" }
        AgentMemory.empty "hi"
        { id := "s1", subject := some "math", name := some "Tut" }
        []).2.content = fallbackResponse :=
  c3_generator_failure_fallback _ _ _ _ _ (fun _ _ _ _ => ⟨"offline", rfl⟩)

/-- The pipeline result's `agentState.subject` is the input state's subject,
whatever the generator and fault flags do. -/
theorem pipelineExecute_subject (env : FlowEnv) (mem : AgentMemory FlowState)
    (state : FlowState) (input : String) :
    (pipelineExecute env mem state input).2.agentState.subject =
      state.subject := by
  rw [pipelineExecute_eq]
  simp [nodeEnd, nodeMemory_snd_subject, nodeAgent_subject, nodeStart_subject]

/-- C9: on a turn with no prior checkpoint for the session, the result's
`agentState.subject` is the session descriptor's subject, defaulting to
`"various subjects"` when the descriptor's subject is absent (or empty, which
JavaScript also treats as falsy). -/
theorem c9_fresh_state_subject (env : FlowEnv) (mem : AgentMemory FlowState)
    (userMessage : String) (sess : TutorSession) (hist : List ChatMsg)
    (hload : (mem.loadCheckpoint sess.id none).2 = none) :
    (executeAgentFlow env mem userMessage sess hist).2.agentState.subject =
      jsOrStr sess.subject "various subjects" := by
  unfold executeAgentFlow
  by_cases hf : env.faults.loadCheckpoint <;>
    by_cases hf2 : env.faults.saveUserMsg <;>
      simp [hf, hf2, hload, pipelineExecute_subject]

/-- Witness for C9: a fresh store has no checkpoint, and the descriptor has
no subject, so the result's subject is the default. -/
theorem c9_fresh_state_subject_witness :
    ((AgentMemory.empty (σ := FlowState)).loadCheckpoint "s2" none).2 = none ∧
    (executeAgentFlow
        { gen := fun _ _ _ _ => Except.ok "hello", tUserMsg := 1,
          tAsstMsg := 2, tCkpt := 3, ckptRand := "r", isoNow := "T" }
        AgentMemory.empty "hi" { id := "s2", subject := none, name := none }
        []).2.agentState.subject = "various subjects" :=
  ⟨rfl, c9_fresh_state_subject _ _ "hi"
    { id := "s2", subject := none, name := none } [] rfl⟩

/-- C4: `workflow.execute` never lets a stage exception escape: whatever the
four stage functions do, the result is either the output the `end` stage
returned, or — as soon as any stage threw `e` — the degraded
`mkPipelineErrorResult` built from the input state's `subject` and `name`,
the fixed apology as `content`, and `error := some e`. -/
theorem c4_execute_catches_stage_errors {M : Type}
    (startN agentN : M → FlowState → String → M × Except String FlowState)
    (memoryN : M → FlowState → M × Except String FlowState)
    (endN : M → FlowState → M × Except String FlowResult)
    (iso : String) (mem : M) (state : FlowState) (input : String) :
    (∃ e, (workflowExecute startN agentN memoryN endN iso mem state input).2 =
        mkPipelineErrorResult state iso e) ∨
    (∃ m3 s3, (endN m3 s3).2 = Except.ok
        (workflowExecute startN agentN memoryN endN iso mem state input).2) := by
  rcases h1 : startN mem state input with ⟨m1, r1⟩
  rcases r1 with e | s1
  · refine Or.inl ⟨e, ?_⟩
    simp only [workflowExecute, h1]
  · rcases h2 : agentN m1 s1 input with ⟨m2, r2⟩
    rcases r2 with e | s2
    · refine Or.inl ⟨e, ?_⟩
      simp only [workflowExecute, h1, h2]
    · rcases h3 : memoryN m2 s2 with ⟨m3, r3⟩
      rcases r3 with e | s3
      · refine Or.inl ⟨e, ?_⟩
        simp only [workflowExecute, h1, h2, h3]
      · rcases h4 : endN m3 s3 with ⟨m4, r4⟩
        rcases r4 with e | r
        · refine Or.inl ⟨e, ?_⟩
          simp only [workflowExecute, h1, h2, h3, h4]
        · refine Or.inr ⟨m3, s3, ?_⟩
          simp only [workflowExecute, h1, h2, h3, h4]

/-- C10: if a persistence call inside the memory stage throws, the stage
returns its input state unchanged — no checkpoint id is added and the
assistant message is not appended to the returned state's messages; when
`saveMessage` succeeded and only `saveCheckpoint` threw, the assistant row is
nevertheless already in the store. -/
theorem c10_memory_fault_returns_input (env : FlowEnv)
    (mem : AgentMemory FlowState) (state : FlowState) :
    (env.faults.saveAsstMsg = true → nodeMemory env mem state = (mem, state)) ∧
    (env.faults.saveAsstMsg = false → env.faults.saveCheckpoint = true →
      (nodeMemory env mem state).2 = state ∧
      ({ rowid := mem.nextMsgRowId, sessionId := state.sessionId,
         messageId := "msg_" ++ toString env.tAsstMsg, role := "assistant",
         content := state.response.getD "",
         timestamp := env.tAsstMsg } : MsgRow) ∈
        (nodeMemory env mem state).1.messages) := by
  refine ⟨fun h => by simp [nodeMemory, h], fun h1 h2 => ⟨?_, ?_⟩⟩
  · simp [nodeMemory, h1, h2]
  · simp [nodeMemory, h1, h2, AgentMemory.saveMessage]

/-- Witness for C10 at a concrete state, for both fault configurations. -/
theorem c10_memory_fault_returns_input_witness :
    nodeMemory
        { gen := fun _ _ _ _ => Except.ok "ok",
          faults := { saveAsstMsg := true }, tAsstMsg := 9 }
        AgentMemory.empty
        { subject := "m", name := "n", messages := [], sessionId := "s",
          response := some "resp" } =
      (AgentMemory.empty,
        { subject := "m", name := "n", messages := [], sessionId := "s",
          response := some "resp" }) ∧
    (nodeMemory
        { gen := fun _ _ _ _ => Except.ok "ok",
          faults := { saveCheckpoint := true }, tAsstMsg := 9 }
        AgentMemory.empty
        { subject := "m", name := "n", messages := [], sessionId := "s",
          response := some "resp" }).2 =
      { subject := "m", name := "n", messages := [], sessionId := "s",
        response := some "resp" } ∧
    ({ rowid := 1, sessionId := "s", messageId := "msg_9", role := "assistant",
       content := "resp", timestamp := 9 } : MsgRow) ∈
      (nodeMemory
          { gen := fun _ _ _ _ => Except.ok "ok",
            faults := { saveCheckpoint := true }, tAsstMsg := 9 }
          AgentMemory.empty
          { subject := "m", name := "n", messages := [], sessionId := "s",
            response := some "resp" }).1.messages :=
  ⟨(c10_memory_fault_returns_input _ _ _).1 rfl,
   ((c10_memory_fault_returns_input _ _ _).2 rfl rfl).1,
   ((c10_memory_fault_returns_input _ _ _).2 rfl rfl).2⟩

/-- C5 (code bug): both message ids generated during one turn are
`` `msg_${Date.now()}` `` with no random component.  On a turn where the
user-message save and the assistant-message save observe the same millisecond
(here 55), the two keys collide and the assistant save replaces the user row:
after the turn the session's message table holds exactly one row — the user
message is gone — contradicting "Message id unique per session / neither save
replaces the other's row". -/
theorem c5_same_millisecond_id_collision :
    ((executeAgentFlow
        { gen := fun _ _ _ _ => Except.ok "hello", tUserMsg := 55,
          tAsstMsg := 55, tCkpt := 60, ckptRand := "zzzz", isoNow := "T" }
        AgentMemory.empty "hi"
        { id := "s1", subject := some "math", name := some "Tut" }
        []).1.messages.map
      (fun r => (r.sessionId, r.messageId, r.role, r.content))) =
      [("s1", "msg_55", "assistant", "hello")] := by
  decide
